import Mathlib

/-!
Verification of the object-storage service layer of a small FastAPI backend.

The development shallowly embeds the Python code of the repository:
- app/services/s3_service.py        (S3Service: bucket_exists, list_files,
                                     upload_local_file, get_file_content)
- app/services/setup/s3_setup_service.py (S3SetupService: setup_bucket, _create_bucket)
- app/routes/s3.py                  (GET /s3/file/content)
- app/routes/document.py            (POST /document/chunks)
- app/services/document_service.py  (DocumentService.chunk_text)
- app/models/s3.py                  (FileItem.from_s3_object)

Provider interactions (aioboto3 calls) are modelled by passing the provider
response as an explicit argument; each operation also returns the list of
requests it sent, so that "no network call is made" is expressible as an
empty request list.  Exceptions are modelled as explicit outcome values.
-/

namespace AwsRagBot

/-- Exception kinds that can escape the service layer.  valueError models a
plain Python ValueError, fileNotFound a FileNotFoundError, accessDenied the
S3ServiceError raised with an access-denied message, objectAccess every other
S3ServiceError (the generic ObjectAccessError of the spec taxonomy). -/
inductive SvcError
  | valueError
  | fileNotFound
  | accessDenied
  | objectAccess
deriving DecidableEq, Repr

/-- Result of a service-layer operation: a returned value or a raised error. -/
inductive SvcOutcome (α : Type)
  | ok (a : α)
  | err (e : SvcError)
deriving DecidableEq, Repr

/-- Outcome of the head_bucket probe as seen by bucket_exists: the await
either returns, raises a botocore ClientError carrying an optional error code
(response Error Code) and an optional integer HTTP status (a missing or
non-integer status is modelled as none), or raises some other exception. -/
inductive ProbeResult
  | success
  | clientError (code : Option String) (status : Option Int)
  | otherError
deriving DecidableEq, Repr

/-- The member values of the CPython http.HTTPStatus enumeration.  The
constructor HTTPStatus(n) raises ValueError for any other integer. -/
def httpStatusCodes : List Int :=
  [100, 101, 102, 103,
   200, 201, 202, 203, 204, 205, 206, 207, 208, 226,
   300, 301, 302, 303, 304, 305, 307, 308,
   400, 401, 402, 403, 404, 405, 406, 407, 408, 409, 410, 411, 412, 413,
   414, 415, 416, 417, 418, 421, 422, 423, 424, 425, 426, 428, 429, 431, 451,
   500, 501, 502, 503, 504, 505, 506, 507, 508, 510, 511]

/-- Result of evaluating the Python expression
  HTTPStatus(status) if isinstance(status, int) else None
which either yields an optional status enum value or raises ValueError. -/
inductive StatusEnum
  | ok (s : Option Int)
  | valueError
deriving DecidableEq, Repr

/-- Models status_enum = HTTPStatus(status) if isinstance(status, int) else None
(s3_service.py line 53).  HTTPStatus raises ValueError on an integer that is
not a member of the enumeration. -/
def statusEnum : Option Int → StatusEnum
  | none => .ok none
  | some s => if s ∈ httpStatusCodes then .ok (some s) else .valueError

/-- Models the Python str.strip method (with whitespace characters). -/
def pyStrip (s : String) : String :=
  String.mk (((s.toList.dropWhile Char.isWhitespace).reverse.dropWhile
    Char.isWhitespace).reverse)

/-- Models the except-ClientError handler of S3Service.bucket_exists
(s3_service.py lines 50-60): compute code and status_enum, return False on the
not-found family, raise the access-denied S3ServiceError on the forbidden
family, and otherwise raise the generic S3ServiceError.  Computing status_enum
happens first, and an unrecognized integer status makes HTTPStatus raise a
ValueError inside the handler, which propagates unwrapped. -/
def classifyClientError (code : Option String) (status : Option Int) :
    SvcOutcome Bool :=
  match statusEnum status with
  | .valueError => .err .valueError
  | .ok st =>
    if st = some 404 ∨ code = some "NoSuchBucket" ∨ code = some "NotFound" then
      .ok false
    else if st = some 403 ∨ code = some "AccessDenied" then
      .err .accessDenied
    else
      .err .objectAccess

/-- Models S3Service.bucket_exists (s3_service.py lines 34-63).  The second
component is the list of provider operations performed.  A blank bucket name
raises ValueError before the client is built, so no probe is sent. -/
def bucket_exists (bucket_name : String) (probe : ProbeResult) :
    SvcOutcome Bool × List String :=
  if bucket_name = "" ∨ pyStrip bucket_name = "" then
    (.err .valueError, [])
  else
    match probe with
    | .success => (.ok true, ["head_bucket"])
    | .clientError code status => (classifyClientError code status, ["head_bucket"])
    | .otherError => (.err .objectAccess, ["head_bucket"])

/-- Spec-side predicate: the status field, when an integer is present, is a
member of the HTTP status enumeration. -/
def statusRecognized : Option Int → Bool
  | none => true
  | some s => decide (s ∈ httpStatusCodes)

/-- Spec-side predicate: the probe failed in the not-found family
(status 404 or a no-such-bucket error code). -/
def probeNotFound : ProbeResult → Bool
  | .clientError code status =>
      statusRecognized status &&
        (status == some 404 || code == some "NoSuchBucket" || code == some "NotFound")
  | _ => false

/-- Spec-side predicate: the probe failed in the access-denied family
(status 403 or an access-denied error code) and not in the not-found family. -/
def probeAccessDenied : ProbeResult → Bool
  | .clientError code status =>
      statusRecognized status &&
        !(status == some 404 || code == some "NoSuchBucket" || code == some "NotFound") &&
        (status == some 403 || code == some "AccessDenied")
  | _ => false

/-- Spec-side predicate: the probe failed as a ClientError whose integer
status is not a recognized HTTP status value. -/
def probeInvalidStatus : ProbeResult → Bool
  | .clientError _ status => !(statusRecognized status)
  | _ => false

/-- Outcome of the create_bucket provider call inside
S3SetupService._create_bucket: the await returns, raises a botocore
ClientError with an optional error code, raises an S3ServiceError, or raises
any other exception. -/
inductive CreateResult
  | success
  | clientError (code : Option String)
  | s3ServiceError
  | otherError
deriving DecidableEq, Repr

/-- Shape of the create_bucket request: bucket name plus the optional
CreateBucketConfiguration LocationConstraint. -/
structure CreateBucketRequest where
  bucket : String
  locationConstraint : Option String
deriving DecidableEq, Repr

/-- Models the request construction in S3SetupService._create_bucket
(s3_setup_service.py lines 46-57).  region is the resolved value of
AWS_REGION or AWS_DEFAULT_REGION (none models both unset); the create call
carries the LocationConstraint only when the region is truthy (non-empty) and
differs from us-east-1. -/
def create_bucket_request (bucket_name : String) (region : Option String) :
    CreateBucketRequest :=
  match region with
  | some r =>
      if r ≠ "" ∧ r ≠ "us-east-1" then ⟨bucket_name, some r⟩
      else ⟨bucket_name, none⟩
  | none => ⟨bucket_name, none⟩

/-- Outcome of S3SetupService._create_bucket: return, or raise
S3SetupServiceError. -/
inductive CreateOutcome
  | ok
  | setupError
deriving DecidableEq, Repr

/-- Models S3SetupService._create_bucket (s3_setup_service.py lines 44-67):
a ClientError whose code is BucketAlreadyOwnedByYou or BucketAlreadyExists is
treated as success; every other failure raises S3SetupServiceError.  The
second component is the request that was issued. -/
def create_bucket (bucket_name : String) (region : Option String)
    (res : CreateResult) : CreateOutcome × CreateBucketRequest :=
  ( match res with
    | .success => .ok
    | .clientError code =>
        if code = some "BucketAlreadyOwnedByYou" ∨
            code = some "BucketAlreadyExists" then .ok
        else .setupError
    | .s3ServiceError => .setupError
    | .otherError => .setupError
  , create_bucket_request bucket_name region )

/-- Outcome of S3SetupService.setup_bucket: the bucket name is returned, an
S3SetupServiceError is raised, or an exception raised by bucket_exists
propagates uncaught. -/
inductive SetupOutcome
  | returnsName (name : String)
  | setupError
  | propagates (e : SvcError)
deriving DecidableEq, Repr

/-- Models S3SetupService.setup_bucket (s3_setup_service.py lines 24-42) with
the provider responses passed explicitly: envBucket is the value of the
S3_BUCKET_NAME environment variable, probe the head_bucket outcome, and
createRes the outcome of the creation call (reached only when the existence
check returns false). -/
def setup_bucket (envBucket : Option String) (region : Option String)
    (probe : ProbeResult) (createRes : CreateResult) : SetupOutcome :=
  match envBucket with
  | none => .setupError
  | some b =>
    if b = "" then .setupError
    else
      match (bucket_exists b probe).1 with
      | .ok true => .returnsName b
      | .ok false =>
        match (create_bucket b region createRes).1 with
        | .ok => .returnsName b
        | .setupError => .setupError
      | .err e => .propagates e

/-- A well-behaved provider for sequential runs of setup_bucket: the list of
buckets that exist, all owned by this account. -/
structure ProviderState where
  buckets : List String
deriving DecidableEq, Repr

/-- The head_bucket probe against the well-behaved provider: succeeds iff the
bucket exists, otherwise fails with code NoSuchBucket and status 404. -/
def head_bucket_probe (st : ProviderState) (b : String) : ProbeResult :=
  if b ∈ st.buckets then .success
  else .clientError (some "NoSuchBucket") (some 404)

/-- The creation call against the well-behaved provider: creates the bucket,
or fails with BucketAlreadyOwnedByYou when it already exists. -/
def create_bucket_step (st : ProviderState) (b : String) :
    CreateResult × ProviderState :=
  if b ∈ st.buckets then (.clientError (some "BucketAlreadyOwnedByYou"), st)
  else (.success, ⟨b :: st.buckets⟩)

/-- One run of setup_bucket against the well-behaved provider, returning the
outcome together with the provider state after the run; the state changes only
when the creation call is reached, i.e. when the existence check returned
false. -/
def setup_bucket_run (envBucket : Option String) (region : Option String)
    (st : ProviderState) : SetupOutcome × ProviderState :=
  match envBucket with
  | none => (.setupError, st)
  | some b =>
    ( setup_bucket (some b) region (head_bucket_probe st b)
        (create_bucket_step st b).1
    , if (bucket_exists b (head_bucket_probe st b)).1 = .ok false then
        (create_bucket_step st b).2
      else st )

/-- Bytes are modelled as lists of naturals. -/
def ByteSeq : Type := List Nat
deriving instance DecidableEq, Repr for ByteSeq

/-- Provider response to the get_object call: a response dictionary whose Body
entry is the object bytes (none models a missing or null Body), a botocore
ClientError, or any other exception. -/
inductive GetObjectResult
  | found (body : Option ByteSeq)
  | clientError (code : Option String) (status : Option Int)
  | otherError
deriving DecidableEq, Repr

/-- Shape of a get_object request. -/
structure GetObjectRequest where
  bucket : String
  key : String
deriving DecidableEq, Repr

/-- Models S3Service.get_file_content (s3_service.py lines 123-139).  The
empty-key ValueError is raised inside the try block, so the blanket except
handler wraps it into the generic S3ServiceError; it is raised before the
client is built, hence the empty request list.  A response whose Body is
missing or null yields empty bytes.  Every exception from the provider call
is wrapped into the generic S3ServiceError. -/
def get_file_content (bucket : String) (key : String) (res : GetObjectResult) :
    SvcOutcome ByteSeq × List GetObjectRequest :=
  if key = "" then (.err .objectAccess, [])
  else
    match res with
    | .found none => (.ok [], [⟨bucket, key⟩])
    | .found (some d) => (.ok d, [⟨bucket, key⟩])
    | .clientError _ _ => (.err .objectAccess, [⟨bucket, key⟩])
    | .otherError => (.err .objectAccess, [⟨bucket, key⟩])

/-- HTTP statuses the modelled routes can produce. -/
inductive HTTPResult
  | ok200
  | notFound404
  | serverError500
  | unprocessable422
deriving DecidableEq, Repr

/-- Models the GET /s3/file/content route handler (s3.py lines 164-182)
composed with S3Service.get_file_content.  FastAPI rejects an empty file_name
with 422 (Query min_length 1).  The handler maps a FileNotFoundError to 404
and every other exception to 500. -/
def get_file_content_route (bucket : String) (fileName : String)
    (res : GetObjectResult) : HTTPResult :=
  if fileName = "" then .unprocessable422
  else
    match (get_file_content bucket fileName res).1 with
    | .ok _ => .ok200
    | .err .fileNotFound => .notFound404
    | .err _ => .serverError500

/-- The local file passed to upload_local_file: its name (used for MIME
inference), whether the path exists, whether it is a regular file, and the
bytes read from it. -/
structure LocalPath where
  name : String
  pathExists : Bool
  isFile : Bool
  content : ByteSeq
deriving DecidableEq, Repr

/-- Provider response to the put_object call. -/
inductive PutObjectResult
  | success
  | clientError (code : Option String) (status : Option Int)
  | otherError
deriving DecidableEq, Repr

/-- Shape of a put_object request: the optional contentType field is present
exactly when a ContentType entry is included in the call arguments. -/
structure PutObjectRequest where
  bucket : String
  key : String
  body : ByteSeq
  contentType : Option String
deriving DecidableEq, Repr

/-- Models S3Service.upload_local_file (s3_service.py lines 81-121).
guessType stands for mimetypes.guess_type applied to the path name (none when
inference yields nothing).  The empty-key ValueError and the missing-file
FileNotFoundError are raised inside the try block, so the blanket except
handler wraps both into the generic S3ServiceError, before any request is
sent.  The ContentType argument is included only when the effective content
type is truthy (non-empty). -/
def upload_local_file (bucket : String) (guessType : String → Option String)
    (path : LocalPath) (key : String) (contentType : Option String)
    (res : PutObjectResult) : SvcOutcome String × List PutObjectRequest :=
  if key = "" then (.err .objectAccess, [])
  else if path.pathExists = false ∨ path.isFile = false then
    (.err .objectAccess, [])
  else
    let effective : Option String :=
      match contentType with
      | some ct => some ct
      | none => guessType path.name
    let ctArg : Option String :=
      match effective with
      | some ct => if ct = "" then none else some ct
      | none => none
    let req : PutObjectRequest := ⟨bucket, key, path.content, ctArg⟩
    match res with
    | .success => (.ok key, [req])
    | .clientError _ _ => (.err .objectAccess, [req])
    | .otherError => (.err .objectAccess, [req])

/-- An entry of the Contents list of a list_objects_v2 response, as consumed
by FileItem.from_s3_object: each field may be absent. -/
structure S3Object where
  key : Option String
  size : Option Int
  lastModified : Option String
  etag : Option String
deriving DecidableEq, Repr

/-- The FileItem value object (app/models/s3.py). -/
structure FileItem where
  key : String
  size : Option Int
  last_modified : Option String
  etag : Option String
deriving DecidableEq, Repr

/-- Models FileItem.from_s3_object (app/models/s3.py lines 15-22): the key is
str(obj.get("Key")), so a missing Key renders as the string None; the other
fields are copied as optional values. -/
def FileItem.from_s3_object (o : S3Object) : FileItem :=
  { key := match o.key with
      | some k => k
      | none => "None"
  , size := o.size
  , last_modified := o.lastModified
  , etag := o.etag }

/-- The Contents entry of a list_objects_v2 response: absent (response.get
returns the default empty list), null (iterating it raises TypeError), or a
list of entries. -/
inductive ContentsField
  | missing
  | nullValue
  | entries (objs : List S3Object)
deriving DecidableEq, Repr

/-- Provider response to the list_objects_v2 call: a response carrying a
Contents field, or any exception. -/
inductive ListObjectsResult
  | respond (contents : ContentsField)
  | raises
deriving DecidableEq, Repr

/-- Shape of a list_objects_v2 request: the optional pfx field models the
Prefix argument, absent when no Prefix entry is put into the kwargs. -/
structure ListObjectsRequest where
  bucket : String
  maxKeys : Int
  pfx : Option String
deriving DecidableEq, Repr

/-- Models S3Service.list_files (s3_service.py lines 65-79).  The Prefix
argument is added to the kwargs only when the prefix parameter is truthy, so
none and the empty string both omit it.  A missing Contents field defaults to
the empty list; a null Contents raises TypeError when iterated, wrapped into
the generic S3ServiceError, as is every provider exception. -/
def list_files (bucket : String) (pfx : Option String) (maxKeys : Int)
    (res : ListObjectsResult) : SvcOutcome (List FileItem) × List ListObjectsRequest :=
  let pfxArg : Option String :=
    match pfx with
    | some p => if p = "" then none else some p
    | none => none
  let req : ListObjectsRequest := ⟨bucket, maxKeys, pfxArg⟩
  match res with
  | .raises => (.err .objectAccess, [req])
  | .respond .missing => (.ok [], [req])
  | .respond .nullValue => (.err .objectAccess, [req])
  | .respond (.entries objs) => (.ok (objs.map FileItem.from_s3_object), [req])

/-- Models DocumentService.chunk_text (document_service.py lines 67-95).
split stands for the external RecursiveCharacterTextSplitter split_text,
parameterized by chunk size and overlap.  Blank text short-circuits to an
empty list before any validation; then chunk_size, chunk_overlap and their
relation are validated, raising ValueError. -/
def chunk_text (split : String → Int → Int → List String) (text : String)
    (chunk_size chunk_overlap : Int) : SvcOutcome (List String) :=
  if pyStrip text = "" then .ok []
  else if chunk_size ≤ 0 then .err .valueError
  else if chunk_overlap < 0 then .err .valueError
  else if chunk_overlap ≥ chunk_size then .err .valueError
  else .ok (split text chunk_size chunk_overlap)

/-- Response of the POST /document/chunks route: a success payload carrying
count, chunk_size, chunk_overlap and the chunks, or an HTTP error status. -/
inductive ChunkRouteResult
  | ok (count : Nat) (chunk_size chunk_overlap : Int) (chunks : List String)
  | badRequest400
  | unprocessable422
  | serverError500
deriving DecidableEq, Repr

/-- Models the POST /document/chunks route handler (document.py lines 42-58)
composed with DocumentService.chunk_text.  FastAPI rejects chunk_size below 1
and chunk_overlap below 0 with 422 (Query ge constraints).  The handler maps
a ValueError to 400; the success payload sets count to the number of
chunks. -/
def chunk_text_route (split : String → Int → Int → List String) (text : String)
    (chunk_size chunk_overlap : Int) : ChunkRouteResult :=
  if chunk_size < 1 ∨ chunk_overlap < 0 then .unprocessable422
  else
    match chunk_text split text chunk_size chunk_overlap with
    | .ok chunks => .ok chunks.length chunk_size chunk_overlap chunks
    | .err .valueError => .badRequest400
    | .err _ => .serverError500

theorem statusEnum_eq_ok {status st : Option Int} (h : statusEnum status = .ok st) :
    st = status ∧ statusRecognized status = true := by
  cases status with
  | none =>
    simp [statusEnum] at h
    simp [statusRecognized, h]
  | some s =>
    simp only [statusEnum] at h
    by_cases hm : s ∈ httpStatusCodes
    · rw [if_pos hm] at h
      cases h
      simp [statusRecognized, hm]
    · rw [if_neg hm] at h
      cases h

theorem statusEnum_eq_valueError {status : Option Int}
    (h : statusEnum status = .valueError) : statusRecognized status = false := by
  cases status with
  | none => simp [statusEnum] at h
  | some s =>
    simp only [statusEnum] at h
    by_cases hm : s ∈ httpStatusCodes
    · rw [if_pos hm] at h; cases h
    · simp [statusRecognized, hm]

/-- Claim C1 (amended): for every bucket name that is neither empty nor
whitespace-only, bucket_exists returns true iff the probe succeeds; returns
false iff the probe fails as a ClientError in the not-found family (recognized
status 404 or code NoSuchBucket / NotFound, including code NoSuchBucket with
status 400); raises the distinct access-denied error iff the failure is in the
forbidden family (recognized status 403 or code AccessDenied) and not in the
not-found family; raises a plain ValueError iff the ClientError carries an
integer status that is not a recognized HTTP status value; and raises the
generic ObjectAccessError for every remaining failure kind. -/
theorem C1_bucket_exists_classification (name : String) (probe : ProbeResult)
    (h : pyStrip name ≠ "") :
    ((bucket_exists name probe).1 = .ok true ↔ probe = .success)
  ∧ ((bucket_exists name probe).1 = .ok false ↔ probeNotFound probe = true)
  ∧ ((bucket_exists name probe).1 = .err .accessDenied ↔
      probeAccessDenied probe = true)
  ∧ ((bucket_exists name probe).1 = .err .valueError ↔
      probeInvalidStatus probe = true)
  ∧ ((bucket_exists name probe).1 = .err .objectAccess ↔
      (probe ≠ .success ∧ probeNotFound probe = false ∧
        probeAccessDenied probe = false ∧ probeInvalidStatus probe = false)) := by
  have h0 : ¬(name = "" ∨ pyStrip name = "") := by
    rintro (rfl | h1)
    · exact h rfl
    · exact h h1
  unfold bucket_exists
  rw [if_neg h0]
  cases probe with
  | success =>
    simp [probeNotFound, probeAccessDenied, probeInvalidStatus, statusRecognized]
  | otherError =>
    simp [probeNotFound, probeAccessDenied, probeInvalidStatus, statusRecognized]
  | clientError code status =>
    have lemA : probeNotFound (.clientError code status) = true ↔
        (statusRecognized status = true ∧
          (status = some 404 ∨ code = some "NoSuchBucket" ∨
            code = some "NotFound")) := by
      simp only [probeNotFound, Bool.and_eq_true, Bool.or_eq_true, beq_iff_eq]
      tauto
    have lemB : probeAccessDenied (.clientError code status) = true ↔
        (statusRecognized status = true ∧
          ¬(status = some 404 ∨ code = some "NoSuchBucket" ∨
            code = some "NotFound") ∧
          (status = some 403 ∨ code = some "AccessDenied")) := by
      simp only [probeAccessDenied, Bool.and_eq_true, Bool.or_eq_true, beq_iff_eq,
        Bool.not_eq_true', Bool.or_eq_false_iff, beq_eq_false_iff_ne, ne_eq]
      tauto
    have lemC : probeInvalidStatus (.clientError code status) = true ↔
        statusRecognized status = false := by
      simp [probeInvalidStatus]
    simp only [classifyClientError]
    cases hst : statusEnum status with
    | valueError =>
      have hrec := statusEnum_eq_valueError hst
      dsimp only
      refine ⟨by simp, ?_, ?_, ?_, ?_⟩
      · refine iff_of_false (by simp) ?_
        intro hf
        rw [(lemA.mp hf).1] at hrec
        cases hrec
      · refine iff_of_false (by simp) ?_
        intro hf
        rw [(lemB.mp hf).1] at hrec
        cases hrec
      · exact iff_of_true rfl (lemC.mpr hrec)
      · refine iff_of_false (by simp) ?_
        rintro ⟨_, _, _, hi⟩
        rw [lemC.mpr hrec] at hi
        cases hi
    | ok st =>
      obtain ⟨rfl, hrec⟩ := statusEnum_eq_ok hst
      dsimp only
      by_cases h1 : st = some 404 ∨ code = some "NoSuchBucket" ∨
          code = some "NotFound"
      · rw [if_pos h1]
        refine ⟨by simp, ?_, ?_, ?_, ?_⟩
        · exact iff_of_true rfl (lemA.mpr ⟨hrec, h1⟩)
        · refine iff_of_false (by simp) ?_
          intro hf
          exact (lemB.mp hf).2.1 h1
        · refine iff_of_false (by simp) ?_
          intro hf
          rw [lemC.mp hf] at hrec
          cases hrec
        · refine iff_of_false (by simp) ?_
          rintro ⟨_, hn, _, _⟩
          have ht := lemA.mpr ⟨hrec, h1⟩
          rw [hn] at ht
          cases ht
      · rw [if_neg h1]
        by_cases h2 : st = some 403 ∨ code = some "AccessDenied"
        · rw [if_pos h2]
          refine ⟨by simp, ?_, ?_, ?_, ?_⟩
          · refine iff_of_false (by simp) ?_
            intro hf
            exact h1 (lemA.mp hf).2
          · exact iff_of_true rfl (lemB.mpr ⟨hrec, h1, h2⟩)
          · refine iff_of_false (by simp) ?_
            intro hf
            rw [lemC.mp hf] at hrec
            cases hrec
          · refine iff_of_false (by simp) ?_
            rintro ⟨_, _, ha, _⟩
            have ht := lemB.mpr ⟨hrec, h1, h2⟩
            rw [ha] at ht
            cases ht
        · rw [if_neg h2]
          refine ⟨by simp, ?_, ?_, ?_, ?_⟩
          · refine iff_of_false (by simp) ?_
            intro hf
            exact h1 (lemA.mp hf).2
          · refine iff_of_false (by simp) ?_
            intro hf
            exact h2 (lemB.mp hf).2.2
          · refine iff_of_false (by simp) ?_
            intro hf
            rw [lemC.mp hf] at hrec
            cases hrec
          · refine iff_of_true rfl ⟨by simp, ?_, ?_, ?_⟩
            · cases hb : probeNotFound (.clientError code st) with
              | false => rfl
              | true => exact absurd (lemA.mp hb).2 h1
            · cases hb : probeAccessDenied (.clientError code st) with
              | false => rfl
              | true => exact absurd (lemB.mp hb).2.2 h2
            · cases hb : probeInvalidStatus (.clientError code st) with
              | false => rfl
              | true =>
                rw [lemC.mp hb] at hrec
                cases hrec

/-- Witness for C1 at a concrete input: with the bucket name x and a
successful probe, bucket_exists returns true. -/
theorem C1_bucket_exists_classification_witness :
    (bucket_exists "x" ProbeResult.success).1 = .ok true :=
  ((C1_bucket_exists_classification "x" ProbeResult.success (by decide)).1).mpr rfl

/-- Claim C1 counterexample: the claim as stated fails on the code in three
places.  First, a ClientError with code NoSuchBucket and status 403 returns
false (the not-found family takes precedence), while the claim requires the
access-denied error whenever the status is 403.  Second, a ClientError whose
integer status is not a recognized HTTP status value (here 599) escapes as a
plain ValueError, while the claim requires the generic ObjectAccessError for
every other failure kind.  Third, the whitespace-only (hence non-empty)
bucket name raises ValueError even though the probe would succeed, while the
claim requires true for every non-empty name whose probe succeeds. -/
theorem C1_bucket_exists_counterexample :
    (bucket_exists "x" (.clientError (some "NoSuchBucket") (some 403))).1 = .ok false
  ∧ (bucket_exists "x" (.clientError (some "SlowDown") (some 599))).1 =
      .err .valueError
  ∧ (bucket_exists " " .success).1 = .err .valueError := by
  refine ⟨by decide, by decide, by decide⟩

/-- Claim C10: for every bucket name that is empty or whitespace-only,
bucket_exists raises a plain ValueError (not the wrapped storage error) and
sends no request to the provider. -/
theorem C10_blank_bucket_name (name : String) (probe : ProbeResult)
    (h : pyStrip name = "") :
    bucket_exists name probe = (.err .valueError, []) := by
  unfold bucket_exists
  rw [if_pos (Or.inr h)]

/-- Witness for C10 at the concrete whitespace-only name. -/
theorem C10_blank_bucket_name_witness :
    pyStrip " " = "" ∧ bucket_exists " " .success = (.err .valueError, []) :=
  ⟨by decide, C10_blank_bucket_name " " .success (by decide)⟩

theorem bucket_exists_blank (name : String) (probe : ProbeResult)
    (h : pyStrip name = "") : bucket_exists name probe = (.err .valueError, []) := by
  unfold bucket_exists
  rw [if_pos (Or.inr h)]

theorem bucket_exists_nonblank (name : String) (probe : ProbeResult)
    (h : ¬(name = "" ∨ pyStrip name = "")) :
    bucket_exists name probe =
      (match probe with
        | .success => (.ok true, ["head_bucket"])
        | .clientError code status =>
            (classifyClientError code status, ["head_bucket"])
        | .otherError => (.err .objectAccess, ["head_bucket"])) := by
  unfold bucket_exists
  rw [if_neg h]

theorem setup_bucket_eq_returnsName {b0 b : String} {region : Option String}
    {probe : ProbeResult} {createRes : CreateResult}
    (h : setup_bucket (some b0) region probe createRes = .returnsName b) :
    b = b0 ∧ ¬(b0 = "" ∨ pyStrip b0 = "") := by
  unfold setup_bucket at h
  dsimp only at h
  by_cases hb0 : b0 = ""
  · rw [if_pos hb0] at h
    cases h
  · rw [if_neg hb0] at h
    by_cases hblank : pyStrip b0 = ""
    · rw [bucket_exists_blank b0 probe hblank] at h
      simp at h
    · have hb : ¬(b0 = "" ∨ pyStrip b0 = "") := by tauto
      refine ⟨?_, hb⟩
      rcases hout : (bucket_exists b0 probe).1 with v | e
      · rw [hout] at h
        cases v with
        | true =>
          simp at h
          exact h.symm
        | false =>
          cases hcr : (create_bucket b0 region createRes).1 with
          | ok =>
            rw [hcr] at h
            simp at h
            exact h.symm
          | setupError =>
            rw [hcr] at h
            simp at h
      · rw [hout] at h
        simp at h

theorem setup_bucket_run_mem (region : Option String) (st : ProviderState)
    (b0 : String) (hb : ¬(b0 = "" ∨ pyStrip b0 = "")) (hmem : b0 ∈ st.buckets) :
    setup_bucket_run (some b0) region st = (.returnsName b0, st) := by
  have hbne : b0 ≠ "" := fun hc => hb (Or.inl hc)
  have hp : head_bucket_probe st b0 = .success := by
    unfold head_bucket_probe
    rw [if_pos hmem]
  have hbe : (bucket_exists b0 ProbeResult.success).1 = .ok true := by
    rw [bucket_exists_nonblank _ _ hb]
  unfold setup_bucket_run
  dsimp only
  rw [hp]
  have hsb : setup_bucket (some b0) region ProbeResult.success
      (create_bucket_step st b0).1 = .returnsName b0 := by
    unfold setup_bucket
    dsimp only
    rw [if_neg hbne, hbe]
  rw [hsb, hbe]
  simp

theorem setup_bucket_run_not_mem (region : Option String) (st : ProviderState)
    (b0 : String) (hb : ¬(b0 = "" ∨ pyStrip b0 = "")) (hmem : b0 ∉ st.buckets) :
    setup_bucket_run (some b0) region st =
      (.returnsName b0, ⟨b0 :: st.buckets⟩) := by
  have hbne : b0 ≠ "" := fun hc => hb (Or.inl hc)
  have hp : head_bucket_probe st b0 =
      .clientError (some "NoSuchBucket") (some 404) := by
    unfold head_bucket_probe
    rw [if_neg hmem]
  have hcc : classifyClientError (some "NoSuchBucket") (some 404) = .ok false := by
    decide
  have hbe : (bucket_exists b0
      (ProbeResult.clientError (some "NoSuchBucket") (some 404))).1 = .ok false := by
    rw [bucket_exists_nonblank _ _ hb]
    exact hcc
  have hcs : create_bucket_step st b0 = (.success, ⟨b0 :: st.buckets⟩) := by
    unfold create_bucket_step
    rw [if_neg hmem]
  unfold setup_bucket_run
  dsimp only
  rw [hp, hcs]
  have hsb : setup_bucket (some b0) region
      (ProbeResult.clientError (some "NoSuchBucket") (some 404))
      (CreateResult.success, ProviderState.mk (b0 :: st.buckets)).1 =
      .returnsName b0 := by
    unfold setup_bucket
    dsimp only
    rw [if_neg hbne, hbe]
    rfl
  rw [hsb, hbe]
  simp

/-- Claim C2: setup_bucket is idempotent against a well-behaved provider:
whenever a call returns the bucket name, an immediately following second call
returns the same name without raising, regardless of whether the first call
created the bucket; and a creation attempt that fails with provider code
BucketAlreadyOwnedByYou or BucketAlreadyExists after a not-found probe (a
concurrent creation race) is treated as success, the call returning the
bucket name without raising. -/
theorem C2_setup_bucket_idempotent :
    (∀ (env region : Option String) (st : ProviderState) (b : String),
      (setup_bucket_run env region st).1 = .returnsName b →
      (setup_bucket_run env region (setup_bucket_run env region st).2).1 =
        .returnsName b)
  ∧ (∀ (b : String) (region : Option String), pyStrip b ≠ "" →
      setup_bucket (some b) region
          (.clientError (some "NoSuchBucket") (some 404))
          (.clientError (some "BucketAlreadyOwnedByYou")) = .returnsName b
      ∧ setup_bucket (some b) region
          (.clientError (some "NoSuchBucket") (some 404))
          (.clientError (some "BucketAlreadyExists")) = .returnsName b) := by
  constructor
  · intro env region st b hfirst
    cases env with
    | none => simp [setup_bucket_run] at hfirst
    | some b0 =>
      have hsb : setup_bucket (some b0) region (head_bucket_probe st b0)
          (create_bucket_step st b0).1 = .returnsName b := hfirst
      obtain ⟨rfl, hb⟩ := setup_bucket_eq_returnsName hsb
      by_cases hmem : b ∈ st.buckets
      · rw [setup_bucket_run_mem region st b hb hmem]
        rw [setup_bucket_run_mem region st b hb hmem]
      · rw [setup_bucket_run_not_mem region st b hb hmem]
        rw [setup_bucket_run_mem region ⟨b :: st.buckets⟩ b hb
          (List.mem_cons_self b st.buckets)]
  · intro b region h
    have hb : ¬(b = "" ∨ pyStrip b = "") := by
      rintro (rfl | h1)
      · exact h rfl
      · exact h h1
    have hbne : b ≠ "" := fun hc => hb (Or.inl hc)
    have hcc : classifyClientError (some "NoSuchBucket") (some 404) = .ok false := by
      decide
    have hbe : (bucket_exists b
        (ProbeResult.clientError (some "NoSuchBucket") (some 404))).1 =
        .ok false := by
      rw [bucket_exists_nonblank _ _ hb]
      exact hcc
    constructor
    · unfold setup_bucket
      dsimp only
      rw [if_neg hbne, hbe]
      rfl
    · unfold setup_bucket
      dsimp only
      rw [if_neg hbne, hbe]
      rfl

/-- Witness for C2 at concrete inputs: starting from a provider with no
buckets, a first run creates and returns the bucket and a second run still
returns it; and the race outcome at the concrete name x. -/
theorem C2_setup_bucket_idempotent_witness :
    (setup_bucket_run (some "x") none
        (setup_bucket_run (some "x") none ⟨[]⟩).2).1 = .returnsName "x"
  ∧ setup_bucket (some "x") none
      (.clientError (some "NoSuchBucket") (some 404))
      (.clientError (some "BucketAlreadyOwnedByYou")) = .returnsName "x" :=
  ⟨C2_setup_bucket_idempotent.1 (some "x") none ⟨[]⟩ "x" (by decide),
   (C2_setup_bucket_idempotent.2 "x" none (by decide)).1⟩

/-- Claim C6: during bucket creation, when the resolved region is absent
(both environment variables unset, or resolving to the empty string) or equals
the provider default us-east-1, the create call carries no
LocationConstraint; for every other region the create call carries exactly
that region as the LocationConstraint. -/
theorem C6_region_constraint (b : String) (region : Option String) :
    ((region = none ∨ region = some "" ∨ region = some "us-east-1") →
      create_bucket_request b region = ⟨b, none⟩)
  ∧ (∀ r : String, region = some r → r ≠ "" → r ≠ "us-east-1" →
      create_bucket_request b region = ⟨b, some r⟩) := by
  constructor
  · rintro (rfl | rfl | rfl) <;> simp [create_bucket_request]
  · rintro r rfl hr hr2
    simp [create_bucket_request, hr, hr2]

/-- Witness for C6 at concrete regions. -/
theorem C6_region_constraint_witness :
    create_bucket_request "x" (some "eu-west-1") = ⟨"x", some "eu-west-1"⟩
  ∧ create_bucket_request "x" (some "us-east-1") = ⟨"x", none⟩ :=
  ⟨(C6_region_constraint "x" (some "eu-west-1")).2 "eu-west-1" rfl
      (by decide) (by decide),
   (C6_region_constraint "x" (some "us-east-1")).1 (Or.inr (Or.inr rfl))⟩

/-- Claim C3 (code evidence): at the failing input where the object is absent
(the provider reports code NoSuchKey with status 404), the route responds 500,
not the documented 404: S3Service.get_file_content wraps every provider
failure into the generic S3ServiceError, so the FileNotFoundError branch of
the route handler (and its declared 404 response) is unreachable.  The second
conjunct shows the service outcome is always either success or the generic
error, never the FileNotFoundError that the route translates to 404. -/
theorem C3_absent_object_gets_500 :
    get_file_content_route "bucket" "docs/a.md"
      (.clientError (some "NoSuchKey") (some 404)) = .serverError500
  ∧ ∀ (bucket key : String) (res : GetObjectResult),
      (get_file_content bucket key res).1 = .err .objectAccess ∨
        ∃ d : ByteSeq, (get_file_content bucket key res).1 = .ok d := by
  constructor
  · rfl
  · intro bucket key res
    unfold get_file_content
    by_cases hk : key = ""
    · rw [if_pos hk]
      left
      rfl
    · rw [if_neg hk]
      cases res with
      | found body =>
        cases body with
        | none => exact Or.inr ⟨[], rfl⟩
        | some d => exact Or.inr ⟨d, rfl⟩
      | clientError code status => exact Or.inl rfl
      | otherError => exact Or.inl rfl

/-- Claim C4 counterexample: get_object with an empty key, and put_object
with an empty key or with a missing file, fail with the generic
ObjectAccessError (the SvcError.objectAccess outcome below), not with the
distinct ValidationError kind the claim requires (which the model renders as
SvcError.valueError): the ValueError or FileNotFoundError raised inside the
try block is wrapped by the blanket except handler. -/
theorem C4_validation_error_kind_counterexample :
    (get_file_content "bucket" "" (.found (some [104]))).1 = .err .objectAccess
  ∧ (upload_local_file "bucket" (fun _ => none) ⟨"a.txt", true, true, [104]⟩ ""
      none .success).1 = .err .objectAccess
  ∧ (upload_local_file "bucket" (fun _ => none) ⟨"a.txt", false, true, [104]⟩ "k"
      none .success).1 = .err .objectAccess := by
  refine ⟨rfl, rfl, rfl⟩

/-- Claim C4 (amended): for every get_object call with an empty key, and
every put_object call with an empty key or a path that does not exist or is
not a regular file, the operation fails before any network call (the request
list is empty), but the failure surfaces as the generic ObjectAccessError
wrapping the validation exception, not as a distinct ValidationError kind. -/
theorem C4_validation_before_network (bucket key : String)
    (g : String → Option String) (path : LocalPath) (ct : Option String)
    (gres : GetObjectResult) (pres : PutObjectResult) :
    (key = "" → get_file_content bucket key gres = (.err .objectAccess, []))
  ∧ ((key = "" ∨ path.pathExists = false ∨ path.isFile = false) →
      upload_local_file bucket g path key ct pres = (.err .objectAccess, [])) := by
  constructor
  · intro hk
    unfold get_file_content
    rw [if_pos hk]
  · intro hv
    unfold upload_local_file
    rcases hv with hk | hp
    · rw [if_pos hk]
    · by_cases hk : key = ""
      · rw [if_pos hk]
      · rw [if_neg hk, if_pos hp]

/-- Witness for C4 at concrete inputs: an empty get key and a missing upload
file. -/
theorem C4_validation_before_network_witness :
    get_file_content "bucket" "" (.found (some [104])) = (.err .objectAccess, [])
  ∧ upload_local_file "bucket" (fun _ => none) ⟨"a.txt", false, true, [104]⟩ "k"
      none .success = (.err .objectAccess, []) :=
  ⟨(C4_validation_before_network "bucket" "" (fun _ => none)
      ⟨"a.txt", false, true, [104]⟩ none (.found (some [104])) .success).1 rfl,
   (C4_validation_before_network "bucket" "k" (fun _ => none)
      ⟨"a.txt", false, true, [104]⟩ none (.found (some [104])) .success).2
      (Or.inr (Or.inl rfl))⟩

/-- Claim C5: list_objects returns exactly one FileItem per entry of the
provider result set, in the provider order; a missing result set yields the
empty sequence, not an error; and a null result set raises the generic
ObjectAccessError rather than being treated as empty. -/
theorem C5_list_files_shape (bucket : String) (pfx : Option String) (mk : Int) :
    (∀ (objs : List S3Object) (l : List FileItem),
      (list_files bucket pfx mk (.respond (.entries objs))).1 = .ok l →
      l.length = objs.length ∧
        ∀ i : Nat, l[i]? = (objs[i]?).map FileItem.from_s3_object)
  ∧ (list_files bucket pfx mk (.respond .missing)).1 = .ok []
  ∧ (list_files bucket pfx mk (.respond .nullValue)).1 = .err .objectAccess := by
  refine ⟨?_, rfl, rfl⟩
  intro objs l h
  have h2 : objs.map FileItem.from_s3_object = l := by
    have h3 : (list_files bucket pfx mk (.respond (.entries objs))).1 =
        .ok (objs.map FileItem.from_s3_object) := rfl
    rw [h3] at h
    injection h
  constructor
  · rw [← h2, List.length_map]
  · intro i
    rw [← h2, List.getElem?_map]

/-- Witness for C5 at a concrete two-entry result set, matching the spec
scenario of a two-entry listing with a prefix filter. -/
theorem C5_list_files_shape_witness :
    ([⟨"a", some 1, none, none⟩, ⟨"None", some 2, none, none⟩] :
        List FileItem).length =
      ([⟨some "a", some 1, none, none⟩, ⟨none, some 2, none, none⟩] :
        List S3Object).length :=
  ((C5_list_files_shape "bucket" (some "docs/") 10).1
    [⟨some "a", some 1, none, none⟩, ⟨none, some 2, none, none⟩]
    [⟨"a", some 1, none, none⟩, ⟨"None", some 2, none, none⟩] rfl).1

/-- Claim C7: every list_objects call with prefix none, and every call with
prefix the empty string, sends a request carrying no Prefix parameter. -/
theorem C7_no_prefix_sent (bucket : String) (mk : Int) (res : ListObjectsResult) :
    ((list_files bucket none mk res).2.all fun r => r.pfx == none) = true
  ∧ ((list_files bucket (some "") mk res).2.all fun r => r.pfx == none) = true := by
  cases res with
  | raises => exact ⟨rfl, rfl⟩
  | respond c => cases c <;> exact ⟨rfl, rfl⟩

/-- Claim C8 counterexample: when the caller supplies the empty string as the
content type, the code neither sends it as given nor falls back to inference:
the empty override suppresses inference (here the registry would infer
text/plain) and the ContentType argument is omitted, while the claim requires
a caller-supplied content type to be sent exactly as given. -/
theorem C8_content_type_counterexample :
    (upload_local_file "bucket" (fun _ => some "text/plain")
      ⟨"note.txt", true, true, [104]⟩ "k" (some "") .success).2 =
      [⟨"bucket", "k", [104], none⟩] := by
  rfl

/-- Claim C8 (amended): for every put_object call on an existing regular file
with a non-empty key: a non-empty caller-supplied content type is sent
exactly as given, overriding inference; an empty-string override suppresses
inference and omits the content-type header; with no override, a non-empty
inferred MIME type is sent; and when inference yields nothing, no
content-type header is included in the upload request at all. -/
theorem C8_content_type (bucket : String) (g : String → Option String)
    (path : LocalPath) (key : String) (ct : Option String)
    (res : PutObjectResult) (hk : key ≠ "") (he : path.pathExists = true)
    (hf : path.isFile = true) :
    (∀ c : String, ct = some c → c ≠ "" →
      (upload_local_file bucket g path key ct res).2 =
        [⟨bucket, key, path.content, some c⟩])
  ∧ (ct = some "" →
      (upload_local_file bucket g path key ct res).2 =
        [⟨bucket, key, path.content, none⟩])
  ∧ (∀ c : String, ct = none → g path.name = some c → c ≠ "" →
      (upload_local_file bucket g path key ct res).2 =
        [⟨bucket, key, path.content, some c⟩])
  ∧ (ct = none → g path.name = none →
      (upload_local_file bucket g path key ct res).2 =
        [⟨bucket, key, path.content, none⟩]) := by
  have hcond : ¬(path.pathExists = false ∨ path.isFile = false) := by
    rw [he, hf]
    simp
  refine ⟨?_, ?_, ?_, ?_⟩
  · rintro c rfl hc
    unfold upload_local_file
    rw [if_neg hk, if_neg hcond]
    dsimp only
    rw [if_neg hc]
    cases res <;> rfl
  · rintro rfl
    unfold upload_local_file
    rw [if_neg hk, if_neg hcond]
    dsimp only
    rw [if_pos rfl]
    cases res <;> rfl
  · rintro c rfl hg hc
    unfold upload_local_file
    rw [if_neg hk, if_neg hcond]
    dsimp only
    rw [hg]
    dsimp only
    rw [if_neg hc]
    cases res <;> rfl
  · rintro rfl hg
    unfold upload_local_file
    rw [if_neg hk, if_neg hcond]
    dsimp only
    rw [hg]
    cases res <;> rfl

/-- Witness for C8: a file whose extension infers text/plain and no override
sends the inferred type. -/
theorem C8_content_type_witness :
    (upload_local_file "bucket" (fun _ => some "text/plain")
      ⟨"note.txt", true, true, [104]⟩ "k" none .success).2 =
      [⟨"bucket", "k", [104], some "text/plain"⟩] :=
  ((C8_content_type "bucket" (fun _ => some "text/plain")
      ⟨"note.txt", true, true, [104]⟩ "k" none .success
      (by decide) rfl rfl).2.2.1) "text/plain" rfl rfl (by decide)

/-- Claim C9 counterexample: an out-of-range chunk_size is rejected by the
FastAPI query validation with 422, not 400 as the claim states; and with
in-range parameters violating the overlap bound (chunk_overlap equal to
chunk_size), blank text still yields 200 with zero chunks, because the
service short-circuits blank text before validating the parameters. -/
theorem C9_chunks_route_counterexample :
    chunk_text_route (fun t _ _ => [t]) "hello" 0 0 = .unprocessable422
  ∧ chunk_text_route (fun t _ _ => [t]) "" 1 1 = .ok 0 1 1 [] := by
  refine ⟨rfl, rfl⟩

/-- Claim C9 (amended): for POST /document/chunks with parameters in range
(chunk_size at least 1, chunk_overlap at least 0): blank text yields the
success payload with zero chunks even when chunk_overlap is at least
chunk_size; non-blank text with chunk_overlap at least chunk_size yields 400;
and whenever chunk_overlap is below chunk_size the route responds with count,
chunk_size, chunk_overlap and chunks, where count equals the number of
chunks.  Out-of-range parameters are rejected with 422 by query validation
before the handler runs. -/
theorem C9_chunks_route (split : String → Int → Int → List String)
    (text : String) (cs co : Int) (h1 : 1 ≤ cs) (h2 : 0 ≤ co) :
    (pyStrip text = "" → chunk_text_route split text cs co = .ok 0 cs co [])
  ∧ (pyStrip text ≠ "" → cs ≤ co →
      chunk_text_route split text cs co = .badRequest400)
  ∧ (co < cs → ∃ chunks : List String,
      chunk_text_route split text cs co = .ok chunks.length cs co chunks) := by
  have hrange : ¬(cs < 1 ∨ co < 0) := by omega
  refine ⟨?_, ?_, ?_⟩
  · intro hb
    unfold chunk_text_route chunk_text
    rw [if_neg hrange, if_pos hb]
    rfl
  · intro hb hco
    unfold chunk_text_route chunk_text
    rw [if_neg hrange, if_neg hb, if_neg (show ¬cs ≤ 0 by omega),
      if_neg (show ¬co < 0 by omega), if_pos (show co ≥ cs from hco)]
  · intro hco
    by_cases hb : pyStrip text = ""
    · refine ⟨[], ?_⟩
      unfold chunk_text_route chunk_text
      rw [if_neg hrange, if_pos hb]
    · refine ⟨split text cs co, ?_⟩
      unfold chunk_text_route chunk_text
      rw [if_neg hrange, if_neg hb, if_neg (show ¬cs ≤ 0 by omega),
        if_neg (show ¬co < 0 by omega), if_neg (show ¬co ≥ cs by omega)]

/-- Witness for C9: non-blank text with overlap exceeding size yields 400. -/
theorem C9_chunks_route_witness :
    chunk_text_route (fun t _ _ => [t]) "hi" 5 9 = .badRequest400 :=
  ((C9_chunks_route (fun t _ _ => [t]) "hi" 5 9 (by decide) (by decide)).2.1)
    (by decide) (by decide)
